import Mathlib

/-!
Shallow embedding of the ThreadPoolUtil repository (src/threadpool.hpp,
src/threadpool.cpp): the type-erased container `Any`, the counting
`Semaphore`, the future-like `Result`, the `Task` execution boundary, and
the `ThreadPool` bounded-queue state with its submit / dequeue operations.
Each definition mirrors the corresponding C++ entity; theorems below settle
the spec claims against these definitions.
-/

set_option linter.unusedVariables false

namespace ThreadPoolUtil

/-- A small universe of concrete C++ value types that can be stored in the
type-erased container `Any` (threadpool.hpp, class Any). `cint` models
`int`, `cstring` models `std::string`, `ccstr` models `const char*`
(the type of the literal `""` that `Result::get` returns on an invalid
Result). -/
inductive CppTy
  | cint
  | cstring
  | ccstr
  deriving DecidableEq

/-- The Lean type denoted by each C++ type in the universe. -/
def CppTy.denote : CppTy → Type
  | CppTy.cint => Int
  | CppTy.cstring => String
  | CppTy.ccstr => String

/-- Models class `Any` (threadpool.hpp lines 23-64): a type-erased container
holding one value tagged with its concrete type (`Derive<T>` behind a
`unique_ptr<Base>`). `empty` models a default-constructed Any whose
`base_ptr` is null, which is also the state of a moved-from Any. -/
inductive Any
  | empty
  | boxed (t : CppTy) (v : t.denote)

/-- Models `Any::cast_<T>()` (threadpool.hpp lines 36-43): a
`dynamic_cast<Derive<T>*>` succeeds exactly when the stored tag is `T`,
returning the stored data; otherwise the null cast result triggers
`throw "type is unmatch!"`, modelled as `Except.error`. A null `base_ptr`
(empty Any) also yields a null cast and hence the same error. -/
def Any.cast_ (T : CppTy) : Any → Except String T.denote
  | Any.empty => Except.error "type is unmatch!"
  | Any.boxed t v =>
      if h : t = T then Except.ok (h ▸ v) else Except.error "type is unmatch!"

/-- Models class `Semaphore` (threadpool.hpp lines 66-86): an `int`
counter `resource_` guarded by a mutex and condition variable. -/
structure Semaphore where
  resource_ : Int

/-- Models the observable effect of `Semaphore::wait` (threadpool.hpp
lines 71-75) at a point where no further `post` will arrive: if
`resource_ > 0` the wait returns after decrementing, otherwise the caller
blocks on the condition variable (`none`). -/
def Semaphore.tryWait (s : Semaphore) : Option Semaphore :=
  if s.resource_ > 0 then some ⟨s.resource_ - 1⟩ else none

/-- Models `Semaphore::post` (threadpool.hpp lines 77-81): increment and
notify. -/
def Semaphore.post (s : Semaphore) : Semaphore := ⟨s.resource_ + 1⟩

/-- Models class `Result` (threadpool.hpp lines 135-148): the value slot
`anyres` (default-constructed, i.e. empty, until a worker stores into it),
the semaphore `sem` (initial count 0) and the validity flag `isValid_`.
The `shared_ptr<Task>` back-reference does not affect the behaviour of
`get`/`setAny` and is omitted. -/
structure Result where
  anyres : Any
  sem : Semaphore
  isValid_ : Bool

/-- The sentinel `Result::get` returns when `isValid_` is false: the C++
expression `return "";` boxes the `const char*` literal `""`. -/
def rejectedSentinel : Any := Any.boxed CppTy.ccstr ""

/-- Outcome of one call to `Result::get`: either it returns a value,
leaving the Result in the given state, or it blocks in `sem.wait()` with
no pending signal. -/
inductive GetOutcome
  | returns (value : Any) (after : Result)
  | blocked

/-- Models `Result::get` (threadpool.cpp lines 194-201):
`if(!isValid_) return "";` — immediate return of the sentinel, the
semaphore untouched; otherwise `sem.wait();` then
`return move(anyres);` — the value is moved out, leaving the slot empty.
If the semaphore count is 0 and no post is pending, the call blocks. -/
def Result.get (r : Result) : GetOutcome :=
  if r.isValid_ = false then GetOutcome.returns rejectedSentinel r
  else
    match r.sem.tryWait with
    | some s2 => GetOutcome.returns r.anyres { r with anyres := Any.empty, sem := s2 }
    | none => GetOutcome.blocked

/-- Models `Result::setAny` (threadpool.cpp lines 203-206): store the
value, then `sem.post()`. -/
def Result.setAny (r : Result) (a : Any) : Result :=
  { r with anyres := a, sem := r.sem.post }

/-- A C++ exception escaping user code, identified by its payload. -/
inductive CppExc
  | exn (msg : String)
  deriving DecidableEq

/-- Models class `Task` (threadpool.hpp lines 155-169): the only state is
the raw pointer `Result* result`, modelled as `Option Result` (`none` is
the null pointer). -/
structure Task where
  result : Option Result

/-- Models the constructor `Task::Task` (threadpool.cpp lines 208-210):
`result(nullptr)`. -/
def Task.new : Task := { result := none }

/-- Models `Task::setResult` (threadpool.cpp lines 217-219). -/
def Task.setResult (t : Task) (res : Result) : Task := { t with result := some res }

/-- Observable effect of one call to `Task::exec`: the state of the linked
Result afterwards, whether the virtual `run()` was invoked, and the
exception escaping `exec` into its caller, if any. -/
structure ExecOutcome where
  resultAfter : Option Result
  ranRun : Bool
  thrown : Option CppExc

/-- Models `Task::exec` (threadpool.cpp lines 212-215):
`if(result == nullptr) { return; } result->setAny(run());`.
`run` is pure virtual, supplied by user code; its behaviour is the
parameter `runOutcome` — either a value or a thrown exception. `exec`
contains no try/catch, so a thrown exception propagates to the caller
(the worker loop in `ThreadPool::threadFunc`, which also has no handler). -/
def Task.exec (t : Task) (runOutcome : Except CppExc Any) : ExecOutcome :=
  match t.result with
  | none => { resultAfter := none, ranRun := false, thrown := none }
  | some r =>
      match runOutcome with
      | Except.error e => { resultAfter := some r, ranRun := true, thrown := some e }
      | Except.ok v => { resultAfter := some (r.setAny v), ranRun := true, thrown := none }

/-- Models `const int TASK_MAX_THREADPOOL = 1024` (threadpool.cpp line 9). -/
def TASK_MAX_THREADPOOL : Int := 1024

/-- Models the queue/counter state of class `ThreadPool` (threadpool.hpp
lines 181-322): the task queue (tasks named by numeric ids), the
`atomic_uint taskSize`, the `int taskCapacity`, and the `bool isRunning`
flag (declared but never written by any member function). The fields
`submitted` and `dequeued` are ghost history variables recording, in
order, the ids passed to `submitTask` and the ids popped by
`threadFunc`; they exist only to state ordering properties. -/
structure ThreadPool where
  taskque : List Nat
  taskSize : Nat
  taskCapacity : Int
  isRunning : Bool
  submitted : List Nat
  dequeued : List Nat

/-- Models the constructor `ThreadPool::ThreadPool` (threadpool.cpp lines
16-21): `taskSize(0), taskCapacity(TASK_MAX_THREADPOOL)`. The member
`isRunning` is never initialized by the constructor, so its value is
indeterminate and supplied as a parameter. Both histories start empty. -/
def ThreadPool.new (indeterminateRunning : Bool) : ThreadPool :=
  { taskque := [], taskSize := 0, taskCapacity := TASK_MAX_THREADPOOL,
    isRunning := indeterminateRunning, submitted := [], dequeued := [] }

/-- Models `ThreadPool::setTaskCapacity` (threadpool.cpp lines 31-33):
the body is `taskSize = capacity;` — it assigns the argument to the
`atomic_uint` live-task counter `taskSize` (the `int` value converted to
unsigned, i.e. reduced mod 2^32) and never touches `taskCapacity`. -/
def ThreadPool.setTaskCapacity (p : ThreadPool) (capacity : Int) : ThreadPool :=
  { p with taskSize := (capacity % (2 ^ 32 : Int)).toNat }

/-- Models `ThreadPool::submitTask` (threadpool.cpp lines 42-68) as the
continuation that runs once `notFull.wait_for(lock, 1s, pred)` has
returned, acting on the pool state observed at that moment. `predHeld`
is the Bool `wait_for` returned: `true` if `taskCapacity > taskSize`
held when the wait ended, `false` if the one-second timeout elapsed with
the predicate still false. The source discards this value and proceeds
unconditionally: `taskque.emplace(task); taskSize++;
notEmpty.notify_all();`. It never reads `isRunning`. The function is
declared to return `Result`, but every control path reaches the closing
brace without a return statement, so no Result object is ever
constructed or returned — modelled as the second component being `none`
in all cases. -/
def ThreadPool.submitTask (p : ThreadPool) (taskId : Nat) (predHeld : Bool) :
    ThreadPool × Option Result :=
  ({ p with taskque := p.taskque ++ [taskId], taskSize := p.taskSize + 1,
            submitted := p.submitted ++ [taskId] }, none)

/-- One interleaved queue operation on the pool: a producer running
`submitTask` to completion, or a worker running the critical section of
one `threadFunc` iteration. -/
inductive PoolOp
  | submit (taskId : Nat)
  | dequeue

/-- Applies one operation under the queue lock.
For `submit`, the predicate value passed to `submitTask` is whatever
`taskCapacity > taskSize` evaluates to on the observed state (its value
is irrelevant: the source ignores it).
For `dequeue`, models the critical section of `ThreadPool::threadFunc`
(threadpool.cpp lines 113-137): the worker blocks on
`notEmpty.wait(lock, taskSize > 0)`; if `taskSize > 0` it takes
`taskque.front()`, pops it and decrements `taskSize`. If `taskSize = 0`
the wait blocks and the state is unchanged; the branch where
`taskSize > 0` but the queue is empty (reachable only through the
`setTaskCapacity` aliasing, where `front()` on an empty queue is
undefined behaviour in C++) is modelled as a no-op. -/
def ThreadPool.applyOp (p : ThreadPool) : PoolOp → ThreadPool
  | PoolOp.submit taskId =>
      (p.submitTask taskId (decide (p.taskCapacity > (p.taskSize : Int)))).1
  | PoolOp.dequeue =>
      if p.taskSize > 0 then
        match p.taskque with
        | t :: rest =>
            { p with taskque := rest, taskSize := p.taskSize - 1,
                     dequeued := p.dequeued ++ [t] }
        | [] => p
      else p

/-- Runs a sequence of interleaved queue operations. -/
def ThreadPool.runOps (p : ThreadPool) (ops : List PoolOp) : ThreadPool :=
  ops.foldl ThreadPool.applyOp p

/-- Models `ThreadPool::stop` (threadpool.hpp lines 221-223): the body is
empty, so the pool state is returned unchanged — no flag is cleared, no
condition variable is notified, and no thread is joined. -/
def ThreadPool.stop (p : ThreadPool) : ThreadPool := p

/-- Ownership state of the OS thread created by `Thread::begin`. -/
inductive ThreadOwnership
  | detached

/-- Models `Thread::begin` (threadpool.cpp lines 176-187): it constructs
`thread t(func)` and immediately calls `t.detach()`, discarding the
handle; the thread is detached and can never be joined. (The body's
trailing stray token after the detach call is a syntax error in the
source; the evident statement is the detach.) -/
def Thread.begin : ThreadOwnership := ThreadOwnership.detached

/-- A full pool: the fresh pool after 1024 accepted submissions, so that
`taskSize = taskCapacity = 1024`. -/
def fullPool : ThreadPool :=
  (ThreadPool.new true).runOps (List.replicate 1024 (PoolOp.submit 0))

/-- Neither submit nor dequeue ever writes `taskCapacity`. -/
theorem applyOp_taskCapacity (p : ThreadPool) (op : PoolOp) :
    (p.applyOp op).taskCapacity = p.taskCapacity := by
  cases op with
  | submit taskId => rfl
  | dequeue =>
    show (if p.taskSize > 0 then
        match p.taskque with
        | t :: rest =>
            { p with taskque := rest, taskSize := p.taskSize - 1,
                     dequeued := p.dequeued ++ [t] }
        | [] => p
      else p).taskCapacity = p.taskCapacity
    by_cases h : p.taskSize > 0
    · rw [if_pos h]
      cases hq : p.taskque with
      | nil => rfl
      | cons t rest => rfl
    · rw [if_neg h]

/-- One queue operation preserves the history decomposition: the ids
submitted so far are exactly the ids dequeued so far followed by the ids
still in the queue. -/
theorem applyOp_submitted_eq (p : ThreadPool) (op : PoolOp)
    (hp : p.submitted = p.dequeued ++ p.taskque) :
    (p.applyOp op).submitted = (p.applyOp op).dequeued ++ (p.applyOp op).taskque := by
  obtain ⟨que, size, cap, run, sub, deq⟩ := p
  dsimp only at hp
  cases op with
  | submit taskId =>
    show sub ++ [taskId] = deq ++ (que ++ [taskId])
    rw [hp, List.append_assoc]
  | dequeue =>
    dsimp only [ThreadPool.applyOp]
    by_cases h : size > 0
    · rw [if_pos h]
      cases que with
      | nil => exact hp
      | cons t rest =>
        show sub = (deq ++ [t]) ++ rest
        rw [hp, List.append_assoc]
        rfl
    · rw [if_neg h]
      exact hp

/-- Running any sequence of queue operations preserves `taskCapacity` and
the history decomposition. -/
theorem runOps_spec : ∀ (ops : List PoolOp) (p : ThreadPool),
    (p.runOps ops).taskCapacity = p.taskCapacity ∧
    (p.submitted = p.dequeued ++ p.taskque →
      (p.runOps ops).submitted = (p.runOps ops).dequeued ++ (p.runOps ops).taskque) := by
  intro ops
  induction ops with
  | nil => exact fun p => ⟨rfl, fun h => h⟩
  | cons op rest ih =>
    intro p
    have h1 := applyOp_taskCapacity p op
    have h2 := ih (p.applyOp op)
    refine ⟨?_, fun hp => ?_⟩
    · show ((p.applyOp op).runOps rest).taskCapacity = p.taskCapacity
      rw [h2.1, h1]
    · show ((p.applyOp op).runOps rest).submitted
        = ((p.applyOp op).runOps rest).dequeued ++ ((p.applyOp op).runOps rest).taskque
      exact h2.2 (applyOp_submitted_eq p op hp)

/-- Every `submitTask` call increments `taskSize` by one, whatever the
capacity: `n` successive submissions add `n`. -/
theorem taskSize_after_submits (taskId : Nat) :
    ∀ (n : Nat) (p : ThreadPool),
      (p.runOps (List.replicate n (PoolOp.submit taskId))).taskSize = p.taskSize + n := by
  intro n
  induction n with
  | zero => intro p; rfl
  | succ k ih =>
    intro p
    show ((p.applyOp (PoolOp.submit taskId)).runOps
        (List.replicate k (PoolOp.submit taskId))).taskSize = p.taskSize + (k + 1)
    rw [ih]
    show p.taskSize + 1 + k = p.taskSize + (k + 1)
    omega

/-- C1: the claim says submitTask rejects — returning an invalid Outcome
and not enqueuing — when the pool is not running or when the queue stays
full past the bounded wait. The source does neither: with the pool not
running it still enqueues and returns no Result, and on a full pool
(taskSize = taskCapacity = 1024) with the wait timed out (predHeld =
false) it still enqueues, driving taskSize to 1025, and returns no
Result (submitTask reaches the end of a Result-returning function with
no return statement, so no invalid Outcome is ever produced). -/
theorem c1_submitTask_never_rejects :
    (((ThreadPool.new false).submitTask 7 false).2 = none ∧
      ((ThreadPool.new false).submitTask 7 false).1.taskSize = 1 ∧
      (ThreadPool.new false).isRunning = false) ∧
    ((fullPool.submitTask 7 false).2 = none ∧
      (fullPool.submitTask 7 false).1.taskSize = 1025 ∧
      fullPool.taskSize = 1024 ∧ fullPool.taskCapacity = 1024) := by
  have hsize : fullPool.taskSize = 1024 := by
    show ((ThreadPool.new true).runOps (List.replicate 1024 (PoolOp.submit 0))).taskSize = 1024
    rw [taskSize_after_submits]
    rfl
  have hcap : fullPool.taskCapacity = 1024 := by
    show ((ThreadPool.new true).runOps (List.replicate 1024 (PoolOp.submit 0))).taskCapacity
      = 1024
    rw [(runOps_spec _ _).1]
    rfl
  refine ⟨⟨rfl, rfl, rfl⟩, rfl, ?_, hsize, hcap⟩
  show fullPool.taskSize + 1 = 1025
  rw [hsize]

/-- C2: the claim says no sequence of submit and dequeue operations makes
the queued-task count exceed the configured capacity. Counterevidence
from the code: 1025 successive submitTask calls on a fresh pool (default
capacity 1024, no workers) drive taskSize to 1025, strictly above
taskCapacity = 1024, because the timed-out wait falls through to the
enqueue. -/
theorem c2_capacity_invariant_violated :
    ((ThreadPool.new true).runOps (List.replicate 1025 (PoolOp.submit 0))).taskSize = 1025 ∧
    ((ThreadPool.new true).runOps (List.replicate 1025 (PoolOp.submit 0))).taskCapacity
      = 1024 ∧
    ((ThreadPool.new true).runOps (List.replicate 1025 (PoolOp.submit 0))).taskCapacity <
      (((ThreadPool.new true).runOps
          (List.replicate 1025 (PoolOp.submit 0))).taskSize : Int) := by
  have h1 :
      ((ThreadPool.new true).runOps (List.replicate 1025 (PoolOp.submit 0))).taskSize
        = 1025 := by
    rw [taskSize_after_submits]
    rfl
  have h2 :
      ((ThreadPool.new true).runOps (List.replicate 1025 (PoolOp.submit 0))).taskCapacity
        = 1024 := by
    rw [(runOps_spec _ _).1]
    rfl
  refine ⟨h1, h2, ?_⟩
  rw [h1, h2]
  decide

/-- C3: the claim says stop sets the running flag to false, wakes every
waiter and joins all Worker threads. Counterevidence from the code:
ThreadPool::stop has an empty body, so it is the identity on the pool
state — no flag is written, nothing is notified, nothing is joined — and
Thread::begin detaches every worker thread, which therefore cannot be
joined and keeps running in threadFunc's infinite loop after stop
returns. -/
theorem c3_stop_is_noop :
    (∀ p : ThreadPool, p.stop = p) ∧ Thread.begin = ThreadOwnership.detached :=
  ⟨fun p => rfl, rfl⟩

/-- The state of a valid Result after its worker stored the value 42 and
posted the semaphore. -/
def completedResult : Result :=
  Result.setAny { anyres := Any.empty, sem := ⟨0⟩, isValid_ := true }
    (Any.boxed CppTy.cint (42 : Int))

/-- C4: the claim says that after the first get() has returned, every
later get() on the same Outcome returns the same cached value without
blocking. Counterevidence from the code: on a completed valid Result the
first get() returns 42 but moves the value out and leaves the semaphore
at 0; the very next get() on the resulting state blocks forever in
sem.wait() — there is no memoization. -/
theorem c4_second_get_blocks :
    completedResult.get = GetOutcome.returns (Any.boxed CppTy.cint (42 : Int))
        { anyres := Any.empty, sem := ⟨0⟩, isValid_ := true } ∧
    Result.get { anyres := Any.empty, sem := ⟨0⟩, isValid_ := true }
      = GetOutcome.blocked :=
  ⟨rfl, rfl⟩

/-- A valid Result freshly created at submission time: empty slot,
semaphore at 0. -/
def readyResult : Result := { anyres := Any.empty, sem := ⟨0⟩, isValid_ := true }

/-- A Task linked to `readyResult` via setResult. -/
def failedRunTask : Task := Task.new.setResult readyResult

/-- C5 counterexample: the claim says any failure raised inside run is
caught at the run/exec boundary and never propagates into the Worker
loop. But Task::exec has no try/catch: on a task whose run throws, the
exception escapes exec (thrown = some e) into threadFunc, which has no
handler either. -/
theorem c5_exception_escapes_exec :
    (failedRunTask.exec (Except.error (CppExc.exn "task failed"))).thrown
      = some (CppExc.exn "task failed") :=
  rfl

/-- C5 amended: exec installs no handler, so a run that throws propagates
out of exec into the Worker loop; capturing failures as an error-tagged
value inside the TypedBox is the WorkItem implementer's obligation
inside run itself. Whenever run returns normally (in particular when
user code has captured its failure as a value), exec stores the value in
the linked Result and the Result's get() returns that value without
blocking. -/
theorem c5_exec_contract (t : Task) (r : Result) (v : Any) (e : CppExc)
    (hlink : t.result = some r) (hvalid : r.isValid_ = true)
    (hsem : 0 ≤ r.sem.resource_) :
    (t.exec (Except.error e)).thrown = some e ∧
    t.exec (Except.ok v)
      = { resultAfter := some (r.setAny v), ranRun := true, thrown := none } ∧
    ∃ after, (r.setAny v).get = GetOutcome.returns v after := by
  refine ⟨?_, ?_, ?_⟩
  · unfold Task.exec
    rw [hlink]
  · unfold Task.exec
    rw [hlink]
  · obtain ⟨a0, ⟨c0⟩, b0⟩ := r
    dsimp only at hvalid hsem
    subst hvalid
    refine ⟨{ anyres := Any.empty, sem := ⟨c0 + 1 - 1⟩, isValid_ := true }, ?_⟩
    dsimp only [Result.setAny, Semaphore.post, Result.get, Semaphore.tryWait]
    rw [if_neg (by decide : ¬ (true = false)), if_pos (by omega : c0 + 1 > 0)]

/-- C5 witness: the amended contract instantiated at a concrete task
whose run throws "boom" respectively returns the int 7. -/
theorem c5_exec_contract_witness :
    (failedRunTask.exec (Except.error (CppExc.exn "boom"))).thrown
      = some (CppExc.exn "boom") ∧
    failedRunTask.exec (Except.ok (Any.boxed CppTy.cint (7 : Int)))
      = { resultAfter := some (readyResult.setAny (Any.boxed CppTy.cint (7 : Int))),
          ranRun := true, thrown := none } ∧
    ∃ after, (readyResult.setAny (Any.boxed CppTy.cint (7 : Int))).get
      = GetOutcome.returns (Any.boxed CppTy.cint (7 : Int)) after :=
  c5_exec_contract failedRunTask readyResult (Any.boxed CppTy.cint (7 : Int))
    (CppExc.exn "boom") rfl rfl (by decide)

/-- C6: for every Result marked invalid at construction, get() returns
the empty/rejected sentinel immediately — the outcome is a return, not a
block, and the semaphore is never waited on (the Result state is
returned unchanged). -/
theorem c6_invalid_get_immediate (r : Result) (h : r.isValid_ = false) :
    r.get = GetOutcome.returns rejectedSentinel r := by
  unfold Result.get
  rw [if_pos h]

/-- An invalid Result, as submission rejection would construct it. -/
def invalidResult : Result := { anyres := Any.empty, sem := ⟨0⟩, isValid_ := false }

/-- C6 witness: the invalid Result's get() returns the sentinel at once. -/
theorem c6_invalid_get_immediate_witness :
    invalidResult.get = GetOutcome.returns rejectedSentinel invalidResult :=
  c6_invalid_get_immediate invalidResult rfl

/-- C7: cast_ on a box constructed from a value of type T returns that
value when T is requested, and fails with the type-mismatch error, never
silently converting, when any other type U is requested. -/
theorem c7_cast_type_identity (T U : CppTy) (v : T.denote) (hne : U ≠ T) :
    (Any.boxed T v).cast_ T = Except.ok v ∧
    (Any.boxed T v).cast_ U = Except.error "type is unmatch!" := by
  constructor
  · cases T <;> rfl
  · cases T <;> cases U <;> first | exact absurd rfl hne | rfl

/-- C7 witness: matching the spec's Scenario B, cast to int on a box
holding a string fails, while cast to string returns the value. -/
theorem c7_cast_type_identity_witness :
    (Any.boxed CppTy.cstring "hello").cast_ CppTy.cstring = Except.ok "hello" ∧
    (Any.boxed CppTy.cstring "hello").cast_ CppTy.cint
      = Except.error "type is unmatch!" :=
  c7_cast_type_identity CppTy.cstring CppTy.cint "hello" (by decide)

/-- C8: FIFO — after any interleaving of submit and dequeue operations
from a fresh pool, the submission history equals the dequeue history
followed by the current queue contents. The dequeue history is therefore
an initial segment of the submission history in the same order: for any
two accepted tasks T1 submitted before T2 that are both dequeued, T1 is
dequeued no later than T2. -/
theorem c8_fifo_order (b : Bool) (ops : List PoolOp) :
    ((ThreadPool.new b).runOps ops).submitted =
      ((ThreadPool.new b).runOps ops).dequeued
        ++ ((ThreadPool.new b).runOps ops).taskque :=
  (runOps_spec ops (ThreadPool.new b)).2 rfl

/-- C9: the claim says setTaskCapacity updates only the capacity field
and leaves the live task count unchanged. Counterevidence from the code:
on a fresh pool (taskSize 0, taskCapacity 1024), setTaskCapacity(5)
writes 5 into taskSize — the live counter — and leaves taskCapacity at
1024. -/
theorem c9_setTaskCapacity_writes_wrong_field :
    ((ThreadPool.new true).setTaskCapacity 5).taskSize = 5 ∧
    ((ThreadPool.new true).setTaskCapacity 5).taskCapacity = 1024 ∧
    (ThreadPool.new true).taskSize = 0 := by
  refine ⟨?_, rfl, rfl⟩
  show ((5 : Int) % (2 ^ 32 : Int)).toNat = 5
  decide

/-- C10: a Task is constructed with a null Result pointer, and exec on
any Task whose Result pointer is null returns immediately: run is not
invoked (ranRun = false), nothing is dereferenced or stored
(resultAfter = none) and nothing is thrown. -/
theorem c10_exec_null_result_guard :
    Task.new.result = none ∧
    ∀ (t : Task) (runOutcome : Except CppExc Any), t.result = none →
      t.exec runOutcome = { resultAfter := none, ranRun := false, thrown := none } := by
  refine ⟨rfl, ?_⟩
  intro t ro h
  unfold Task.exec
  rw [h]

/-- C10 witness: exec on a freshly constructed Task does nothing. -/
theorem c10_exec_null_result_guard_witness :
    Task.new.exec (Except.ok (Any.boxed CppTy.cint (1 : Int)))
      = { resultAfter := none, ranRun := false, thrown := none } :=
  c10_exec_null_result_guard.2 Task.new (Except.ok (Any.boxed CppTy.cint (1 : Int))) rfl

end ThreadPoolUtil
